import Mathlib

/-!
Shallow embedding of the HydroSense Monitor backend core: the in-memory
readings store, validation, classification and the two aggregation queries
of src/backend/app/api/routes/sensor.py together with the decode layer of
src/backend/app/schemas.py.  Numeric sensor values are modelled as
rationals, timestamps as instants on an integer time line, unit
identifiers as lists of characters (Python strings compared and trimmed by
code point).
-/

/-- Error kinds of the service: the exception classes of exceptions.py, the
blank-parameter rejection in sensor.py, and the decode failures that the
schema layer of schemas.py signals. -/
inductive ApiError where
  | invalidTimestamp
  | invalidReadings
  | invalidParameter
  | malformedInput
deriving DecidableEq

/-- Sensor readings triple (schemas.py, class SensorReadings). -/
structure SensorReadings where
  pH : ℚ
  temp : ℚ
  ec : ℚ
deriving DecidableEq

/-- A decoded submission body (schemas.py, class SensorDataInput). -/
structure SensorDataInput where
  unitId : List Char
  timestamp : Int
  readings : SensorReadings
deriving DecidableEq

/-- Response of a successful submission (schemas.py, class ClassificationStatus). -/
structure ClassificationStatus where
  status : String
  classification : String
deriving DecidableEq

/-- A stored, classified reading (schemas.py, class SensorDataRecord). -/
structure SensorDataRecord where
  unitId : List Char
  timestamp : Int
  readings : SensorReadings
  classification : String
deriving DecidableEq

/-- The process-wide store SENSOR_READINGS_STORE of sensor.py: a dictionary
from unit id to the ordered list of that unit's records, kept here as an
association list in dictionary insertion order. -/
abbrev Store := List (List Char × List SensorDataRecord)

/-- Dictionary read SENSOR_READINGS_STORE.get(unit_id, []). -/
def storeGet : Store → List Char → List SensorDataRecord
  | [], _ => []
  | (k, v) :: rest, uid => if k = uid then v else storeGet rest uid

/-- Dictionary update SENSOR_READINGS_STORE.setdefault(unit_id, []).append(e):
append to the existing sequence, or add a new key at the end of the
dictionary insertion order. -/
def setdefaultAppend : Store → List Char → SensorDataRecord → Store
  | [], uid, entry => [(uid, [entry])]
  | (k, v) :: rest, uid, entry =>
    if k = uid then (k, v ++ [entry]) :: rest
    else (k, v) :: setdefaultAppend rest uid entry

/-- Characters removed by Python str.strip() with no argument. -/
def isSpace (c : Char) : Bool := c.isWhitespace

/-- Removal of trailing whitespace, the right half of str.strip(). -/
def dropWhileEnd (p : α → Bool) : List α → List α
  | [] => []
  | a :: l =>
    match dropWhileEnd p l, p a with
    | [], true => []
    | r, _ => a :: r

/-- Python str.strip(): drop leading and trailing whitespace. -/
def trim (s : List Char) : List Char := dropWhileEnd isSpace (s.dropWhile isSpace)

/-- Timestamp validation (sensor.py, validate_timestamp).  The current time
in the fixed reference zone, datetime.now(ZoneInfo of Asia/Jerusalem), is
passed in as now; a reading strictly in the future is rejected with the
InvalidTimestamp kind. -/
def validate_timestamp (now timestamp : Int) : Except ApiError Unit :=
  if timestamp > now then Except.error ApiError.invalidTimestamp else Except.ok ()

/-- Physical range validation (sensor.py, validate_sensor_readings):
pH in [0, 14], temperature in [-10, 60], conductivity nonnegative. -/
def validate_sensor_readings (readings : SensorReadings) : Except ApiError Unit :=
  if ¬ (0 ≤ readings.pH ∧ readings.pH ≤ 14) then
    Except.error ApiError.invalidReadings
  else if ¬ (-10 ≤ readings.temp ∧ readings.temp ≤ 60) then
    Except.error ApiError.invalidReadings
  else if readings.ec < 0 then
    Except.error ApiError.invalidReadings
  else Except.ok ()

/-- Classification (sensor.py, classify_reading): only pH decides. -/
def classify_reading (readings : SensorReadings) : String :=
  if readings.pH < 5.5 ∨ readings.pH > 7.0 then "Needs Attention" else "Healthy"

/-- Route handler for POST /sensor (sensor.py, submit_sensor_reading), acting
on an already decoded input: validate the timestamp, validate the ranges,
classify, append the classified record, and return an OK status carrying
the label. -/
def submit_sensor_reading (now : Int) (s : Store) (sensor_data : SensorDataInput) :
    Except ApiError (ClassificationStatus × Store) :=
  match validate_timestamp now sensor_data.timestamp with
  | Except.error e => Except.error e
  | Except.ok _ =>
    match validate_sensor_readings sensor_data.readings with
    | Except.error e => Except.error e
    | Except.ok _ =>
      let classification := classify_reading sensor_data.readings
      let reading_entry : SensorDataRecord :=
        { unitId := sensor_data.unitId
          timestamp := sensor_data.timestamp
          readings := sensor_data.readings
          classification := classification }
      Except.ok ({ status := "OK", classification := classification },
        setdefaultAppend s sensor_data.unitId reading_entry)

/-- Unit id validator of the request schema (schemas.py, validate_unit_id):
reject ids blank after trimming, and keep the trimmed id. -/
def validate_unit_id (v : List Char) : Except ApiError (List Char) :=
  if trim v = [] then Except.error ApiError.malformedInput else Except.ok (trim v)

/-- Field bounds declared on the request schema (schemas.py, SensorReadings):
pH in [0, 14], temp in [-50, 100], ec in [0, 10], enforced at decode time. -/
def decode_readings_ok (r : SensorReadings) : Bool :=
  decide (0 ≤ r.pH) && decide (r.pH ≤ 14) && decide (-50 ≤ r.temp) &&
    decide (r.temp ≤ 100) && decide (0 ≤ r.ec) && decide (r.ec ≤ 10)

/-- Decode of a raw submission body into SensorDataInput (schemas.py): the
pydantic field constraints and the unit id validator; any failure is the
MalformedInput kind, signalled by the schema layer before the route runs. -/
def decode_input (inp : SensorDataInput) : Except ApiError SensorDataInput :=
  match validate_unit_id inp.unitId with
  | Except.error e => Except.error e
  | Except.ok uid =>
    if decode_readings_ok inp.readings then Except.ok { inp with unitId := uid }
    else Except.error ApiError.malformedInput

/-- Full ingest pipeline: decode the body, then run the route handler. -/
def ingest (now : Int) (s : Store) (inp : SensorDataInput) :
    Except ApiError (ClassificationStatus × Store) :=
  match decode_input inp with
  | Except.error e => Except.error e
  | Except.ok inp2 => submit_sensor_reading now s inp2

/-- Comparator realised by the stable timestamp sorts of sensor.py
(sort with key timestamp and reverse set): newest first. -/
def tsDesc (a b : SensorDataRecord) : Prop := b.timestamp ≤ a.timestamp

instance : DecidableRel tsDesc :=
  fun a b => inferInstanceAs (Decidable (b.timestamp ≤ a.timestamp))

instance : IsTotal SensorDataRecord tsDesc :=
  ⟨fun a b => le_total b.timestamp a.timestamp⟩

instance : IsTrans SensorDataRecord tsDesc :=
  ⟨fun _ _ _ h1 h2 => le_trans h2 h1⟩

/-- Test used by the alert filters and counts of sensor.py: the stored
classification label equals the attention label. -/
def is_alert (r : SensorDataRecord) : Bool :=
  decide (r.classification = "Needs Attention")

/-- Response of GET /alerts (schemas.py, AlertsResponse). -/
structure AlertsResponse where
  unitId : List Char
  alerts : List SensorDataRecord
  unitExists : Bool
  totalReadings : Nat
deriving DecidableEq

/-- Route handler for GET /alerts (sensor.py, get_unit_alerts): reject a
missing or blank unit id, then filter the unit's readings to attention
entries, sort them newest first with the stable sort, and keep ten. -/
def get_unit_alerts (s : Store) (unit_id : Option (List Char)) :
    Except ApiError AlertsResponse :=
  match unit_id with
  | none => Except.error ApiError.invalidParameter
  | some u =>
    if u = [] ∨ trim u = [] then Except.error ApiError.invalidParameter
    else
      let uid := trim u
      let unit_readings := storeGet s uid
      let alerts := unit_readings.filter is_alert
      let alerts := List.insertionSort tsDesc alerts
      let alerts := alerts.take 10
      Except.ok
        { unitId := uid
          alerts := alerts
          unitExists := decide (unit_readings.length > 0)
          totalReadings := unit_readings.length }

/-- Per-unit summary (schemas.py, UnitStatus). -/
structure UnitStatus where
  unitId : List Char
  lastReading : Option SensorDataRecord
  totalReadings : Nat
  alertsCount : Nat
  healthStatus : String
deriving DecidableEq

/-- Summary of one unit, the loop body of get_all_units (sensor.py): sort
the unit's readings newest first, take the head as the last reading, count
attention entries over all readings, and derive the health status from the
attention count among the ten most recent readings. -/
def unit_status_of (uid : List Char) (readings : List SensorDataRecord) : UnitStatus :=
  let sorted_readings := List.insertionSort tsDesc readings
  let last_reading := sorted_readings.head?
  let alerts_count := readings.countP is_alert
  let recent_readings := sorted_readings.take 10
  let recent_alerts := recent_readings.countP is_alert
  let health_status :=
    if recent_alerts = 0 then "healthy"
    else if recent_alerts ≤ 3 then "warning"
    else "critical"
  { unitId := uid
    lastReading := last_reading
    totalReadings := readings.length
    alertsCount := alerts_count
    healthStatus := health_status }

/-- Severity rank, the status_order dictionary of get_all_units. -/
def status_order (h : String) : Nat :=
  if h = "critical" then 0 else if h = "warning" then 1 else 2

/-- Sort order of get_all_units: ascending in the key pair of severity rank
and unit id. -/
def statusLe (a b : UnitStatus) : Prop :=
  status_order a.healthStatus < status_order b.healthStatus ∨
    (status_order a.healthStatus = status_order b.healthStatus ∧ a.unitId ≤ b.unitId)

instance : DecidableRel statusLe := fun a b => by
  unfold statusLe
  infer_instance

instance : IsTotal UnitStatus statusLe := by
  constructor
  intro a b
  rcases lt_trichotomy (status_order a.healthStatus) (status_order b.healthStatus)
    with h | h | h
  · exact Or.inl (Or.inl h)
  · rcases le_total a.unitId b.unitId with h2 | h2
    · exact Or.inl (Or.inr ⟨h, h2⟩)
    · exact Or.inr (Or.inr ⟨h.symm, h2⟩)
  · exact Or.inr (Or.inl h)

instance : IsTrans UnitStatus statusLe := by
  constructor
  intro a b c hab hbc
  rcases hab with h1 | ⟨h1, h1u⟩
  · rcases hbc with h2 | ⟨h2, _⟩
    · exact Or.inl (lt_trans h1 h2)
    · exact Or.inl (h2 ▸ h1)
  · rcases hbc with h2 | ⟨h2, h2u⟩
    · exact Or.inl (h1 ▸ h2)
    · exact Or.inr ⟨h1.trans h2, le_trans h1u h2u⟩

/-- Response of GET /units (schemas.py, UnitsResponse). -/
structure UnitsResponse where
  units : List UnitStatus
  totalUnits : Nat
deriving DecidableEq

/-- Route handler for GET /units (sensor.py, get_all_units): summarize every
unit in store order, then sort by severity rank and unit id. -/
def get_all_units (s : Store) : UnitsResponse :=
  let unit_statuses := s.map (fun p => unit_status_of p.1 p.2)
  let unit_statuses := List.insertionSort statusLe unit_statuses
  { units := unit_statuses, totalUnits := unit_statuses.length }

/-- Requests the three routes handle, for the shared-store state model. -/
inductive Request where
  | submit (input : SensorDataInput)
  | alerts (unitId : Option (List Char))
  | units
deriving DecidableEq

/-- Successful response bodies of the three routes. -/
inductive Response where
  | classified (c : ClassificationStatus)
  | alertList (a : AlertsResponse)
  | unitList (u : UnitsResponse)
deriving DecidableEq

/-- One request against the shared SENSOR_READINGS_STORE: the response
together with the store the handler leaves behind. -/
def step (now : Int) (s : Store) : Request → Except ApiError Response × Store
  | Request.submit inp =>
    match ingest now s inp with
    | Except.error e => (Except.error e, s)
    | Except.ok (c, s2) => (Except.ok (Response.classified c), s2)
  | Request.alerts u =>
    match get_unit_alerts s u with
    | Except.error e => (Except.error e, s)
    | Except.ok r => (Except.ok (Response.alertList r), s)
  | Request.units => (Except.ok (Response.unitList (get_all_units s)), s)

/-- Store after a trace of requests, each paired with the current reference
time at which it arrived, run against the initially empty store. -/
def runRequests (trace : List (Int × Request)) : Store :=
  trace.foldl (fun s nr => (step nr.1 s nr.2).2) []

/-- Range predicate enforced by validate_sensor_readings, used to state the
claims about the range check. -/
def in_physical_range (r : SensorReadings) : Prop :=
  0 ≤ r.pH ∧ r.pH ≤ 14 ∧ -10 ≤ r.temp ∧ r.temp ≤ 60 ∧ 0 ≤ r.ec

instance (r : SensorReadings) : Decidable (in_physical_range r) := by
  unfold in_physical_range
  infer_instance

/-- Invariant of the shared store: keys are trimmed, nonempty unit ids and
every stored sequence is nonempty. -/
def StoreInv (s : Store) : Prop :=
  ∀ q ∈ s, trim q.1 = q.1 ∧ q.1 ≠ [] ∧ q.2 ≠ []

theorem filter_orderedInsert_pos (r : α → α → Prop) [DecidableRel r] (p : α → Bool)
    (a : α) (hpa : p a = true) (hle : ∀ b, p b = true → r a b) :
    ∀ l : List α, (List.orderedInsert r a l).filter p = a :: l.filter p
  | [] => by simp [List.orderedInsert, hpa]
  | b :: l => by
    by_cases h : r a b
    · simp [List.orderedInsert, if_pos h, List.filter_cons, hpa]
    · have hpb : p b = false := by
        cases hp : p b
        · rfl
        · exact absurd (hle b hp) h
      simp [List.orderedInsert, if_neg h, List.filter_cons, hpb,
        filter_orderedInsert_pos r p a hpa hle l]

theorem filter_orderedInsert_neg (r : α → α → Prop) [DecidableRel r] (p : α → Bool)
    (a : α) (hpa : p a = false) :
    ∀ l : List α, (List.orderedInsert r a l).filter p = l.filter p
  | [] => by simp [List.orderedInsert, hpa]
  | b :: l => by
    by_cases h : r a b
    · simp [List.orderedInsert, if_pos h, List.filter_cons, hpa]
    · simp [List.orderedInsert, if_neg h, List.filter_cons,
        filter_orderedInsert_neg r p a hpa l]

theorem filter_insertionSort (r : α → α → Prop) [DecidableRel r] (p : α → Bool)
    (hp : ∀ a b, p a = true → p b = true → r a b) :
    ∀ l : List α, (List.insertionSort r l).filter p = l.filter p
  | [] => rfl
  | a :: l => by
    cases hpa : p a
    · rw [List.insertionSort, filter_orderedInsert_neg r p a hpa,
        filter_insertionSort r p hp l]
      simp [List.filter_cons, hpa]
    · rw [List.insertionSort, filter_orderedInsert_pos r p a hpa (fun b hb => hp a b hpa hb),
        filter_insertionSort r p hp l]
      simp [List.filter_cons, hpa]

theorem filter_take (p : α → Bool) (n : Nat) (l : List α) :
    (l.take n).filter p = (l.filter p).take ((l.take n).countP p) := by
  have key : l.filter p = (l.take n).filter p ++ (l.drop n).filter p := by
    rw [← List.filter_append, List.take_append_drop]
  rw [key, List.countP_eq_length_filter, List.take_left]

theorem dropWhileEnd_nil (p : α → Bool) : dropWhileEnd p [] = [] := rfl

theorem dropWhileEnd_cons_of_false (p : α → Bool) (a : α) (l : List α)
    (hpa : p a = false) : dropWhileEnd p (a :: l) = a :: dropWhileEnd p l := by
  cases h : dropWhileEnd p l <;> simp [dropWhileEnd, h, hpa]

theorem dropWhileEnd_cons_of_ne (p : α → Bool) (a : α) (l : List α)
    (h : dropWhileEnd p l ≠ []) : dropWhileEnd p (a :: l) = a :: dropWhileEnd p l := by
  cases h2 : dropWhileEnd p l
  · exact absurd h2 h
  · cases hpa : p a <;> simp [dropWhileEnd, h2, hpa]

theorem dropWhileEnd_cons_of_nil (p : α → Bool) (a : α) (l : List α)
    (hpa : p a = true) (h : dropWhileEnd p l = []) : dropWhileEnd p (a :: l) = [] := by
  simp [dropWhileEnd, h, hpa]

theorem dropWhileEnd_idem (p : α → Bool) : ∀ l : List α,
    dropWhileEnd p (dropWhileEnd p l) = dropWhileEnd p l
  | [] => rfl
  | a :: l => by
    cases hpa : p a
    · rw [dropWhileEnd_cons_of_false p a l hpa,
        dropWhileEnd_cons_of_false p a (dropWhileEnd p l) hpa,
        dropWhileEnd_idem p l]
    · cases h : dropWhileEnd p l
      · rw [dropWhileEnd_cons_of_nil p a l hpa h, dropWhileEnd_nil]
      · have hne : dropWhileEnd p l ≠ [] := by simp [h]
        rw [dropWhileEnd_cons_of_ne p a l hne,
          dropWhileEnd_cons_of_ne p a (dropWhileEnd p l)
            (by rw [dropWhileEnd_idem p l]; exact hne),
          dropWhileEnd_idem p l]

theorem dropWhileEnd_cons_shape (p : α → Bool) (a : α) (l : List α) :
    dropWhileEnd p (a :: l) = [] ∨ ∃ t, dropWhileEnd p (a :: l) = a :: t := by
  cases hpa : p a
  · exact Or.inr ⟨dropWhileEnd p l, dropWhileEnd_cons_of_false p a l hpa⟩
  · cases h : dropWhileEnd p l
    · exact Or.inl (dropWhileEnd_cons_of_nil p a l hpa h)
    · exact Or.inr ⟨dropWhileEnd p l, dropWhileEnd_cons_of_ne p a l (by simp [h])⟩

theorem dropWhile_eq_cons_head_false (p : α → Bool) :
    ∀ (l : List α) (a : α) (t : List α), l.dropWhile p = a :: t → p a = false
  | [], a, t, h => by simp [List.dropWhile] at h
  | b :: l, a, t, h => by
    rw [List.dropWhile_cons] at h
    cases hpb : p b
    · rw [hpb] at h
      simp at h
      rw [← h.1]
      exact hpb
    · rw [hpb] at h
      simp at h
      exact dropWhile_eq_cons_head_false p l a t h

theorem trim_nil : trim [] = [] := rfl

theorem trim_idem (s : List Char) : trim (trim s) = trim s := by
  unfold trim
  cases hx : s.dropWhile isSpace with
  | nil => simp [dropWhileEnd_nil]
  | cons a t =>
    have hpa : isSpace a = false := dropWhile_eq_cons_head_false isSpace _ a t hx
    rcases dropWhileEnd_cons_shape isSpace a t with h | ⟨t2, h⟩
    · rw [h]
      simp [dropWhileEnd_nil]
    · rw [h, List.dropWhile_cons, hpa]
      simp only [Bool.false_eq_true, if_false]
      rw [← h]
      exact dropWhileEnd_idem isSpace (a :: t)

theorem storeGet_setdefaultAppend_self (uid : List Char) (e : SensorDataRecord) :
    ∀ s : Store, storeGet (setdefaultAppend s uid e) uid = storeGet s uid ++ [e]
  | [] => by simp [setdefaultAppend, storeGet]
  | (k, v) :: rest => by
    by_cases h : k = uid
    · simp [setdefaultAppend, storeGet, if_pos h, h]
    · simp [setdefaultAppend, storeGet, if_neg h,
        storeGet_setdefaultAppend_self uid e rest]

theorem storeGet_setdefaultAppend_ne (uid uid2 : List Char) (e : SensorDataRecord)
    (hne : uid2 ≠ uid) :
    ∀ s : Store, storeGet (setdefaultAppend s uid e) uid2 = storeGet s uid2
  | [] => by simp [setdefaultAppend, storeGet, Ne.symm hne]
  | (k, v) :: rest => by
    by_cases h : k = uid
    · subst h
      simp [setdefaultAppend, storeGet, Ne.symm hne]
    · simp [setdefaultAppend, storeGet, if_neg h,
        storeGet_setdefaultAppend_ne uid uid2 e hne rest]

theorem setdefaultAppend_mem (uid : List Char) (e : SensorDataRecord) :
    ∀ (s : Store) (q : List Char × List SensorDataRecord),
      q ∈ setdefaultAppend s uid e →
      q ∈ s ∨ (q.1 = uid ∧ q.2 = [e]) ∨ ∃ v, (q.1, v) ∈ s ∧ q.2 = v ++ [e]
  | [], q, hq => by
    simp [setdefaultAppend] at hq
    exact Or.inr (Or.inl (by simp [hq]))
  | (k, v) :: rest, q, hq => by
    by_cases h : k = uid
    · rw [setdefaultAppend, if_pos h] at hq
      rcases List.mem_cons.mp hq with h2 | h2
      · refine Or.inr (Or.inr ⟨v, ?_, by simp [h2]⟩)
        rw [h2]
        exact List.mem_cons_self _ _
      · exact Or.inl (List.mem_cons_of_mem _ h2)
    · rw [setdefaultAppend, if_neg h] at hq
      rcases List.mem_cons.mp hq with h2 | h2
      · exact Or.inl (by rw [h2]; exact List.mem_cons_self _ _)
      · rcases setdefaultAppend_mem uid e rest q h2 with h3 | h3 | ⟨v2, h3, h4⟩
        · exact Or.inl (List.mem_cons_of_mem _ h3)
        · exact Or.inr (Or.inl h3)
        · exact Or.inr (Or.inr ⟨v2, List.mem_cons_of_mem _ h3, h4⟩)

theorem validate_timestamp_ok_iff (now ts : Int) :
    validate_timestamp now ts = Except.ok () ↔ ts ≤ now := by
  unfold validate_timestamp
  by_cases h : ts > now
  · simp [if_pos h]
    omega
  · simp [if_neg h]
    omega

theorem validate_timestamp_error_iff (now ts : Int) :
    validate_timestamp now ts = Except.error ApiError.invalidTimestamp ↔ now < ts := by
  unfold validate_timestamp
  by_cases h : ts > now
  · simp [if_pos h]
    omega
  · simp [if_neg h]
    omega

theorem validate_sensor_readings_ok_iff (r : SensorReadings) :
    validate_sensor_readings r = Except.ok () ↔ in_physical_range r := by
  unfold validate_sensor_readings in_physical_range
  simp only [← not_le]
  split_ifs with h1 h2 h3
  all_goals simp
  all_goals try simp only [← not_le] at *
  all_goals tauto

theorem validate_sensor_readings_error_iff (r : SensorReadings) :
    validate_sensor_readings r = Except.error ApiError.invalidReadings ↔
      ¬ in_physical_range r := by
  unfold validate_sensor_readings in_physical_range
  simp only [← not_le]
  split_ifs with h1 h2 h3
  all_goals simp
  all_goals try simp only [← not_le] at *
  all_goals tauto

theorem submit_eq_ok_iff (now : Int) (s : Store) (inp : SensorDataInput)
    (c : ClassificationStatus) (s2 : Store) :
    submit_sensor_reading now s inp = Except.ok (c, s2) ↔
      inp.timestamp ≤ now ∧ in_physical_range inp.readings ∧
        c = { status := "OK", classification := classify_reading inp.readings } ∧
        s2 = setdefaultAppend s inp.unitId
          { unitId := inp.unitId
            timestamp := inp.timestamp
            readings := inp.readings
            classification := classify_reading inp.readings } := by
  unfold submit_sensor_reading
  cases hts : validate_timestamp now inp.timestamp with
  | error e1 =>
    have hlt : now < inp.timestamp := by
      unfold validate_timestamp at hts
      by_cases h : inp.timestamp > now
      · omega
      · simp [if_neg h] at hts
    simp
    rintro h1 -
    omega
  | ok u =>
    cases u
    have hle : inp.timestamp ≤ now := (validate_timestamp_ok_iff now inp.timestamp).mp hts
    cases hr : validate_sensor_readings inp.readings with
    | error e2 =>
      have he2 : e2 = ApiError.invalidReadings := by
        unfold validate_sensor_readings at hr
        split_ifs at hr <;> simp at hr <;> simp [hr]
      subst he2
      have hnr : ¬ in_physical_range inp.readings :=
        (validate_sensor_readings_error_iff inp.readings).mp hr
      simp
      rintro - h2
      exact absurd h2 hnr
    | ok u2 =>
      cases u2
      have hinr : in_physical_range inp.readings :=
        (validate_sensor_readings_ok_iff inp.readings).mp hr
      simp [hle, hinr]
      constructor
      · rintro ⟨h1, h2⟩
        exact ⟨h1.symm, h2.symm⟩
      · rintro ⟨h1, h2⟩
        exact ⟨h1.symm, h2.symm⟩

theorem submit_eq_error_iff (now : Int) (s : Store) (inp : SensorDataInput)
    (e : ApiError) :
    submit_sensor_reading now s inp = Except.error e ↔
      ((e = ApiError.invalidTimestamp ∧ now < inp.timestamp) ∨
        (e = ApiError.invalidReadings ∧ inp.timestamp ≤ now ∧
          ¬ in_physical_range inp.readings)) := by
  unfold submit_sensor_reading
  cases hts : validate_timestamp now inp.timestamp with
  | error e1 =>
    have he1 : e1 = ApiError.invalidTimestamp := by
      unfold validate_timestamp at hts
      split_ifs at hts <;> simp at hts <;> simp [hts]
    subst he1
    have hlt : now < inp.timestamp := (validate_timestamp_error_iff now inp.timestamp).mp hts
    simp [hlt]
    constructor
    · intro h
      exact Or.inl h.symm
    · rintro (h | ⟨h, h2, h3⟩)
      · exact h.symm
      · omega
  | ok u =>
    cases u
    have hle : inp.timestamp ≤ now := (validate_timestamp_ok_iff now inp.timestamp).mp hts
    cases hr : validate_sensor_readings inp.readings with
    | error e2 =>
      have he2 : e2 = ApiError.invalidReadings := by
        unfold validate_sensor_readings at hr
        split_ifs at hr <;> simp at hr <;> simp [hr]
      subst he2
      have hnr : ¬ in_physical_range inp.readings :=
        (validate_sensor_readings_error_iff inp.readings).mp hr
      simp [hle, hnr]
      constructor
      · intro h
        exact Or.inr h.symm
      · rintro (⟨h, h2⟩ | h)
        · omega
        · exact h.symm
    | ok u2 =>
      cases u2
      have hinr : in_physical_range inp.readings :=
        (validate_sensor_readings_ok_iff inp.readings).mp hr
      simp [hinr]
      intro h1
      exact hle

theorem decode_input_ok_iff (inp inp2 : SensorDataInput) :
    decode_input inp = Except.ok inp2 ↔
      trim inp.unitId ≠ [] ∧ decode_readings_ok inp.readings = true ∧
        inp2 = { inp with unitId := trim inp.unitId } := by
  unfold decode_input validate_unit_id
  by_cases ht : trim inp.unitId = []
  · rw [if_pos ht]
    simp [ht]
  · rw [if_neg ht]
    by_cases hd : decode_readings_ok inp.readings
    · simp [hd, ht, eq_comm]
    · simp [hd, ht]

theorem decode_input_error_kind (inp : SensorDataInput) (e : ApiError)
    (h : decode_input inp = Except.error e) : e = ApiError.malformedInput := by
  unfold decode_input validate_unit_id at h
  split_ifs at h
  all_goals simp at h
  all_goals simp [h]

theorem ingest_ok_shape (now : Int) (s : Store) (inp : SensorDataInput)
    (c : ClassificationStatus) (s2 : Store)
    (h : ingest now s inp = Except.ok (c, s2)) :
    trim inp.unitId ≠ [] ∧
      ∃ entry : SensorDataRecord,
        s2 = setdefaultAppend s (trim inp.unitId) entry := by
  unfold ingest at h
  cases hd : decode_input inp with
  | error e =>
    rw [hd] at h
    simp at h
  | ok inp2 =>
    rw [hd] at h
    rcases (decode_input_ok_iff inp inp2).mp hd with ⟨ht, hok, hinp2⟩
    rcases (submit_eq_ok_iff now s inp2 c s2).mp h with ⟨h1, h2, h3, h4⟩
    subst hinp2
    refine ⟨ht, ⟨⟨trim inp.unitId, inp.timestamp, inp.readings,
      classify_reading inp.readings⟩, ?_⟩⟩
    simpa using h4

theorem decode_input_trim (inp : SensorDataInput) :
    decode_input { inp with unitId := trim inp.unitId } = decode_input inp := by
  unfold decode_input validate_unit_id
  simp [trim_idem]

theorem step_submit_store_of_error (now : Int) (s : Store) (inp : SensorDataInput)
    (e : ApiError) (h : (step now s (Request.submit inp)).1 = Except.error e) :
    (step now s (Request.submit inp)).2 = s := by
  simp only [step] at h ⊢
  cases hi : ingest now s inp with
  | error e2 => rfl
  | ok p =>
    rw [hi] at h
    cases p
    simp at h

theorem step_alerts_store (now : Int) (s : Store) (u : Option (List Char)) :
    (step now s (Request.alerts u)).2 = s := by
  simp only [step]
  cases get_unit_alerts s u <;> rfl

theorem step_units_store (now : Int) (s : Store) :
    (step now s Request.units).2 = s := rfl

theorem get_unit_alerts_eq (s : Store) (u : List Char) (h : trim u ≠ []) :
    get_unit_alerts s (some u) =
      Except.ok
        { unitId := trim u
          alerts :=
            (List.insertionSort tsDesc ((storeGet s (trim u)).filter is_alert)).take 10
          unitExists := decide ((storeGet s (trim u)).length > 0)
          totalReadings := (storeGet s (trim u)).length } := by
  have hu : ¬ (u = [] ∨ trim u = []) := by
    rintro (rfl | h2)
    · exact h trim_nil
    · exact h h2
  simp only [get_unit_alerts]
  rw [if_neg hu]

/-- C1: classify_reading returns the healthy label exactly on the closed pH
interval from 5.5 to 7.0 (both boundary values included), the attention
label outside it, and depends on nothing but pH: readings agreeing on pH
receive the same label whatever their temperature and conductivity. -/
theorem c1_classify_by_ph (r r2 : SensorReadings) :
    (5.5 ≤ r.pH ∧ r.pH ≤ 7.0 → classify_reading r = "Healthy") ∧
    (r.pH < 5.5 ∨ r.pH > 7.0 → classify_reading r = "Needs Attention") ∧
    (r.pH = r2.pH → classify_reading r = classify_reading r2) := by
  unfold classify_reading
  refine ⟨?_, ?_, ?_⟩
  · rintro ⟨h1, h2⟩
    rw [if_neg]
    rintro (h | h)
    · linarith
    · linarith
  · intro h
    rw [if_pos h]
  · intro h
    rw [h]

/-- C1 witness: the boundary values 5.5 and 7.0 are healthy, pH 7.1 needs
attention, and temperature and conductivity do not change the label. -/
theorem c1_classify_by_ph_witness :
    classify_reading { pH := 5.5, temp := 20, ec := 1 } = "Healthy" ∧
    classify_reading { pH := 7.0, temp := 20, ec := 1 } = "Healthy" ∧
    classify_reading { pH := 7.1, temp := 20, ec := 1 } = "Needs Attention" ∧
    classify_reading { pH := 6.0, temp := 20, ec := 1 } =
      classify_reading { pH := 6.0, temp := 55, ec := 3 } :=
  ⟨(c1_classify_by_ph ⟨5.5, 20, 1⟩ ⟨5.5, 20, 1⟩).1 (by norm_num),
   (c1_classify_by_ph ⟨7.0, 20, 1⟩ ⟨7.0, 20, 1⟩).1 (by norm_num),
   (c1_classify_by_ph ⟨7.1, 20, 1⟩ ⟨7.1, 20, 1⟩).2.1 (by norm_num),
   (c1_classify_by_ph ⟨6.0, 20, 1⟩ ⟨6.0, 55, 3⟩).2.2 rfl⟩

/-- C2: with a non-future timestamp, the core ingest operation rejects a
reading with the InvalidReadings kind exactly when pH is outside 0 to 14,
temperature outside -10 to 60 or conductivity negative, succeeds past the
range check exactly when all three are in range, and any rejected
submission leaves the shared store exactly as it was. -/
theorem c2_range_rejection (now : Int) (s : Store) (inp : SensorDataInput) :
    (inp.timestamp ≤ now →
      (submit_sensor_reading now s inp = Except.error ApiError.invalidReadings ↔
        ¬ in_physical_range inp.readings)) ∧
    (inp.timestamp ≤ now →
      ((∃ c s2, submit_sensor_reading now s inp = Except.ok (c, s2)) ↔
        in_physical_range inp.readings)) ∧
    (∀ e, (step now s (Request.submit inp)).1 = Except.error e →
      (step now s (Request.submit inp)).2 = s) := by
  refine ⟨?_, ?_, ?_⟩
  · intro hle
    rw [submit_eq_error_iff]
    constructor
    · rintro (⟨h1, h2⟩ | ⟨h1, h2, h3⟩)
      · omega
      · exact h3
    · intro h
      exact Or.inr ⟨rfl, hle, h⟩
  · intro hle
    constructor
    · rintro ⟨c, s2, h⟩
      exact ((submit_eq_ok_iff now s inp c s2).mp h).2.1
    · intro h
      exact ⟨_, _, (submit_eq_ok_iff now s inp _ _).mpr ⟨hle, h, rfl, rfl⟩⟩
  · exact fun e => step_submit_store_of_error now s inp e

/-- C2 witness: a current-time reading with temperature 120 is rejected with
the InvalidReadings kind, and a fully in-range reading passes the check. -/
theorem c2_range_rejection_witness :
    submit_sensor_reading 0 [] ⟨[Char.ofNat 117], 0, ⟨6, 120, 1⟩⟩ =
        Except.error ApiError.invalidReadings ∧
      ∃ c s2, submit_sensor_reading 0 [] ⟨[Char.ofNat 117], 0, ⟨6, 20, 1⟩⟩ =
        Except.ok (c, s2) :=
  ⟨((c2_range_rejection 0 [] ⟨[Char.ofNat 117], 0, ⟨6, 120, 1⟩⟩).1
      (by decide)).mpr (by decide),
   ((c2_range_rejection 0 [] ⟨[Char.ofNat 117], 0, ⟨6, 20, 1⟩⟩).2.1
      (by decide)).mpr (by decide)⟩

/-- C3: the timestamp check passes exactly when the reading's timestamp is
at or before the current time in the fixed reference zone, the core ingest
operation fails with the InvalidTimestamp kind exactly when the timestamp
is strictly later, the full decode-and-ingest pipeline returns
InvalidTimestamp only for such readings, and a rejected submission leaves
the store untouched. -/
theorem c3_future_timestamp (now ts : Int) (s : Store) (inp : SensorDataInput) :
    (validate_timestamp now ts = Except.ok () ↔ ts ≤ now) ∧
    (submit_sensor_reading now s inp = Except.error ApiError.invalidTimestamp ↔
      now < inp.timestamp) ∧
    (ingest now s inp = Except.error ApiError.invalidTimestamp →
      now < inp.timestamp) ∧
    (∀ e, (step now s (Request.submit inp)).1 = Except.error e →
      (step now s (Request.submit inp)).2 = s) := by
  refine ⟨validate_timestamp_ok_iff now ts, ?_, ?_, ?_⟩
  · rw [submit_eq_error_iff]
    constructor
    · rintro (⟨h1, h2⟩ | ⟨h1, h2, h3⟩)
      · exact h2
      · simp at h1
    · intro h
      exact Or.inl ⟨rfl, h⟩
  · intro h
    unfold ingest at h
    cases hd : decode_input inp with
    | error e2 =>
      rw [hd] at h
      have he2 := decode_input_error_kind inp e2 hd
      subst he2
      simp at h
    | ok inp2 =>
      rw [hd] at h
      rcases (decode_input_ok_iff inp inp2).mp hd with ⟨ht, hok, hinp2⟩
      rcases (submit_eq_error_iff now s inp2 ApiError.invalidTimestamp).mp h with
        ⟨h1, h2⟩ | ⟨h1, h2, h3⟩
      · rw [hinp2] at h2
        exact h2
      · simp at h1
  · exact fun e => step_submit_store_of_error now s inp e

/-- C3 witness: at current time 10, a reading timestamped 11 is rejected
with the InvalidTimestamp kind and one timestamped 10 passes the check. -/
theorem c3_future_timestamp_witness :
    validate_timestamp 10 10 = Except.ok () ∧
      submit_sensor_reading 10 [] ⟨[Char.ofNat 117], 11, ⟨6, 20, 1⟩⟩ =
        Except.error ApiError.invalidTimestamp :=
  ⟨(c3_future_timestamp 10 10 [] ⟨[Char.ofNat 117], 11, ⟨6, 20, 1⟩⟩).1.mpr
      (by decide),
   (c3_future_timestamp 10 10 [] ⟨[Char.ofNat 117], 11, ⟨6, 20, 1⟩⟩).2.1.mpr
      (by decide)⟩

/-- C8: a reading passing both validation checks is appended as exactly one
classified record at the end of its unit's sequence (a new sequence when
the unit was unknown), the stored label is the classifier's label computed
at ingest time, every other unit's sequence is unchanged, and the handler
returns the OK status together with that same label. -/
theorem c8_ingest_appends (now : Int) (s : Store) (inp : SensorDataInput)
    (hts : inp.timestamp ≤ now) (hr : in_physical_range inp.readings) :
    ∃ s2, submit_sensor_reading now s inp =
        Except.ok
          ({ status := "OK", classification := classify_reading inp.readings }, s2) ∧
      storeGet s2 inp.unitId = storeGet s inp.unitId ++
        [{ unitId := inp.unitId
           timestamp := inp.timestamp
           readings := inp.readings
           classification := classify_reading inp.readings }] ∧
      (∀ uid, uid ≠ inp.unitId → storeGet s2 uid = storeGet s uid) := by
  refine ⟨_, (submit_eq_ok_iff now s inp _ _).mpr ⟨hts, hr, rfl, rfl⟩, ?_, ?_⟩
  · exact storeGet_setdefaultAppend_self inp.unitId _ s
  · intro uid hne
    exact storeGet_setdefaultAppend_ne inp.unitId uid _ hne s

/-- C8 witness: submitting pH 8.5 at time 0 to the empty store returns OK
with the attention label and the unit's sequence becomes that one record. -/
theorem c8_ingest_appends_witness :
    ∃ s2, submit_sensor_reading 0 [] ⟨[Char.ofNat 117], 0, ⟨8.5, 22, 1⟩⟩ =
        Except.ok
          ({ status := "OK"
             classification := classify_reading ⟨8.5, 22, 1⟩ }, s2) ∧
      storeGet s2 [Char.ofNat 117] = storeGet [] [Char.ofNat 117] ++
        [{ unitId := [Char.ofNat 117]
           timestamp := 0
           readings := ⟨8.5, 22, 1⟩
           classification := classify_reading ⟨8.5, 22, 1⟩ }] ∧
      (∀ uid, uid ≠ [Char.ofNat 117] →
        storeGet s2 uid = storeGet [] uid) :=
  c8_ingest_appends 0 [] ⟨[Char.ofNat 117], 0, ⟨8.5, 22, 1⟩⟩ (by decide)
    (by norm_num [in_physical_range])

/-- C7: the alerts query fails with the InvalidParameter kind exactly when
the unitId parameter is missing or blank after trimming; every non-blank id
succeeds; a unit never ingested yields success with unitExists false, an
empty alert list and zero totalReadings rather than a not-found error, and
a unit with readings but no attention entries yields unitExists true with
an empty alert list. -/
theorem c7_alerts_parameter (s : Store) (u : List Char) :
    (get_unit_alerts s none = Except.error ApiError.invalidParameter) ∧
    (trim u = [] →
      get_unit_alerts s (some u) = Except.error ApiError.invalidParameter) ∧
    (trim u ≠ [] →
      ∃ res, get_unit_alerts s (some u) = Except.ok res ∧
        res.unitId = trim u ∧
        (storeGet s (trim u) = [] →
          res.unitExists = false ∧ res.alerts = [] ∧ res.totalReadings = 0) ∧
        (storeGet s (trim u) ≠ [] → res.unitExists = true) ∧
        ((storeGet s (trim u)).countP is_alert = 0 → res.alerts = [])) := by
  refine ⟨rfl, ?_, ?_⟩
  · intro ht
    simp only [get_unit_alerts]
    rw [if_pos (Or.inr ht)]
  · intro ht
    refine ⟨_, get_unit_alerts_eq s u ht, rfl, ?_, ?_, ?_⟩
    · intro h0
      simp [h0, List.insertionSort]
    · intro h0
      simp only [decide_eq_true_eq]
      exact List.length_pos.mpr h0
    · intro h0
      have hf : (storeGet s (trim u)).filter is_alert = [] := by
        rw [← List.length_eq_zero, ← List.countP_eq_length_filter]
        exact h0
      simp [hf, List.insertionSort]

/-- C7 witness: a blank parameter is rejected, and for the empty store the
unit u is reported as not existing with no alerts and zero readings. -/
theorem c7_alerts_parameter_witness :
    (get_unit_alerts [] none = Except.error ApiError.invalidParameter) ∧
    (get_unit_alerts [] (some [' ']) = Except.error ApiError.invalidParameter) ∧
    (∃ res, get_unit_alerts [] (some ['u']) = Except.ok res ∧
      res.unitId = trim ['u'] ∧
      (storeGet [] (trim ['u']) = [] →
        res.unitExists = false ∧ res.alerts = [] ∧ res.totalReadings = 0) ∧
      (storeGet [] (trim ['u']) ≠ [] → res.unitExists = true) ∧
      ((storeGet [] (trim ['u'])).countP is_alert = 0 → res.alerts = [])) :=
  ⟨(c7_alerts_parameter [] [' ']).1,
   (c7_alerts_parameter [] [' ']).2.1 (by decide),
   (c7_alerts_parameter [] ['u']).2.2 (by decide)⟩

/-- C4: for every store and non-blank unit id the alerts query returns
exactly the unit's attention-classified readings sorted descending by
timestamp with equal timestamps kept in original insertion order, truncated
to the ten most recent; healthy readings never appear; totalReadings is the
unit's full untruncated, unfiltered count. -/
theorem c4_alerts_content (s : Store) (u : List Char) (h : trim u ≠ []) :
    ∃ res, get_unit_alerts s (some u) = Except.ok res ∧
      res.totalReadings = (storeGet s (trim u)).length ∧
      res.alerts =
        (List.insertionSort tsDesc ((storeGet s (trim u)).filter is_alert)).take 10 ∧
      (∀ r, r ∈ res.alerts → r.classification = "Needs Attention") ∧
      (∀ r, r ∈ res.alerts → r ∈ storeGet s (trim u)) ∧
      res.alerts.Pairwise (fun a b => b.timestamp ≤ a.timestamp) ∧
      res.alerts.length = min 10 ((storeGet s (trim u)).filter is_alert).length ∧
      (∀ t : Int, ∃ m, res.alerts.filter (fun r => decide (r.timestamp = t)) =
        (((storeGet s (trim u)).filter is_alert).filter
          (fun r => decide (r.timestamp = t))).take m) := by
  refine ⟨_, get_unit_alerts_eq s u h, rfl, rfl, ?_, ?_, ?_, ?_, ?_⟩
  · intro r hr
    have h1 : r ∈ List.insertionSort tsDesc ((storeGet s (trim u)).filter is_alert) :=
      List.mem_of_mem_take hr
    have h2 : r ∈ (storeGet s (trim u)).filter is_alert :=
      (List.mem_insertionSort tsDesc).mp h1
    have h3 := (List.mem_filter.mp h2).2
    exact of_decide_eq_true h3
  · intro r hr
    exact List.mem_of_mem_filter
      ((List.mem_insertionSort tsDesc).mp (List.mem_of_mem_take hr))
  · exact (List.sorted_insertionSort tsDesc _).sublist (List.take_sublist 10 _)
  · rw [List.length_take, List.length_insertionSort]
  · intro t
    refine ⟨((List.insertionSort tsDesc
      ((storeGet s (trim u)).filter is_alert)).take 10).countP
        (fun r => decide (r.timestamp = t)), ?_⟩
    rw [filter_take]
    congr 1
    apply filter_insertionSort
    intro a b ha hb
    have ha2 : a.timestamp = t := of_decide_eq_true ha
    have hb2 : b.timestamp = t := of_decide_eq_true hb
    unfold tsDesc
    rw [ha2, hb2]

/-- C4 witness: from one attention reading and one healthy reading, the
alerts list holds exactly the attention one while totalReadings counts
both. -/
theorem c4_alerts_content_witness :
    ∃ res, get_unit_alerts
        [(['u'], [⟨['u'], 1, ⟨8, 20, 1⟩, "Needs Attention"⟩,
          ⟨['u'], 2, ⟨6, 20, 1⟩, "Healthy"⟩])] (some ['u']) = Except.ok res ∧
      res.alerts = [⟨['u'], 1, ⟨8, 20, 1⟩, "Needs Attention"⟩] ∧
      res.totalReadings = 2 := by
  rcases c4_alerts_content
      [(['u'], [⟨['u'], 1, ⟨8, 20, 1⟩, "Needs Attention"⟩,
        ⟨['u'], 2, ⟨6, 20, 1⟩, "Healthy"⟩])] ['u'] (by decide) with
    ⟨res, h1, h2, h3, -⟩
  refine ⟨res, h1, ?_, ?_⟩
  · rw [h3]
    rfl
  · rw [h2]
    rfl

theorem step_store_cases (now : Int) (s : Store) (req : Request) :
    (step now s req).2 = s ∨
      ∃ uid entry, trim uid = uid ∧ uid ≠ [] ∧
        (step now s req).2 = setdefaultAppend s uid entry := by
  cases req with
  | alerts u => exact Or.inl (step_alerts_store now s u)
  | units => exact Or.inl (step_units_store now s)
  | submit inp =>
    simp only [step]
    cases hi : ingest now s inp with
    | error e => exact Or.inl rfl
    | ok p =>
      rcases p with ⟨c, s2⟩
      rcases ingest_ok_shape now s inp c s2 hi with ⟨ht, entry, hs2⟩
      refine Or.inr ⟨trim inp.unitId, entry, trim_idem inp.unitId, ht, ?_⟩
      simpa using hs2

theorem setdefaultAppend_inv (s : Store) (uid : List Char) (entry : SensorDataRecord)
    (h : StoreInv s) (h1 : trim uid = uid) (h2 : uid ≠ []) :
    StoreInv (setdefaultAppend s uid entry) := by
  intro q hq
  rcases setdefaultAppend_mem uid entry s q hq with hq2 | ⟨hqa, hqb⟩ | ⟨v, hv, hqb⟩
  · exact h q hq2
  · exact ⟨by rw [hqa]; exact h1, by rw [hqa]; exact h2, by rw [hqb]; simp⟩
  · rcases h (q.1, v) hv with ⟨ha, hb, hc⟩
    exact ⟨ha, hb, by rw [hqb]; simp⟩

theorem storeInv_step (now : Int) (s : Store) (req : Request) (h : StoreInv s) :
    StoreInv ((step now s req).2) := by
  rcases step_store_cases now s req with he | ⟨uid, entry, h1, h2, he⟩
  · rw [he]
    exact h
  · rw [he]
    exact setdefaultAppend_inv s uid entry h h1 h2

theorem storeInv_runAux (trace : List (Int × Request)) :
    ∀ s : Store, StoreInv s →
      StoreInv (trace.foldl (fun s2 nr => (step nr.1 s2 nr.2).2) s) := by
  induction trace with
  | nil =>
    intro s h
    exact h
  | cons nr rest ih =>
    intro s h
    simp only [List.foldl_cons]
    exact ih _ (storeInv_step nr.1 s nr.2 h)

theorem storeInv_runRequests (trace : List (Int × Request)) :
    StoreInv (runRequests trace) := by
  unfold runRequests
  refine storeInv_runAux trace [] ?_
  intro q hq
  simp at hq

/-- C9: the alerts query and the units overview query never mutate the
store: the store after either request equals the store before it, and
repeating the request with no intervening ingest returns the identical
result. -/
theorem c9_queries_pure (now : Int) (s : Store) (u : Option (List Char)) :
    (step now s (Request.alerts u)).2 = s ∧
    (step now s Request.units).2 = s ∧
    step now ((step now s (Request.alerts u)).2) (Request.alerts u) =
      step now s (Request.alerts u) ∧
    step now ((step now s Request.units).2) Request.units =
      step now s Request.units := by
  refine ⟨step_alerts_store now s u, step_units_store now s, ?_, ?_⟩
  · rw [step_alerts_store now s u]
  · rw [step_units_store now s]

/-- C10: ingest trims surrounding whitespace from the submitted unit id
before validating and storing it, so every key ever stored is a non-blank
id with no surrounding whitespace, and both ingest and the alerts query
treat an id with surrounding whitespace exactly as its trimmed form. -/
theorem c10_trimmed_keys (trace : List (Int × Request)) (s : Store)
    (u : List Char) (now : Int) (inp : SensorDataInput) :
    (∀ q ∈ runRequests trace, trim q.1 = q.1 ∧ q.1 ≠ []) ∧
    (get_unit_alerts s (some u) = get_unit_alerts s (some (trim u))) ∧
    (ingest now s inp = ingest now s { inp with unitId := trim inp.unitId }) := by
  refine ⟨?_, ?_, ?_⟩
  · intro q hq
    rcases storeInv_runRequests trace q hq with ⟨h1, h2, h3⟩
    exact ⟨h1, h2⟩
  · by_cases ht : trim u = []
    · have e1 : get_unit_alerts s (some u) = Except.error ApiError.invalidParameter := by
        simp only [get_unit_alerts]
        rw [if_pos (Or.inr ht)]
      have e2 : get_unit_alerts s (some (trim u)) =
          Except.error ApiError.invalidParameter := by
        simp only [get_unit_alerts]
        rw [if_pos (Or.inr (by rw [trim_idem]; exact ht))]
      rw [e1, e2]
    · rw [get_unit_alerts_eq s u ht,
        get_unit_alerts_eq s (trim u) (by rw [trim_idem]; exact ht), trim_idem]
  · unfold ingest
    rw [decode_input_trim]

/-- C10 witness: after submitting under the padded id, the stored key is the
trimmed non-blank id, and querying or submitting with padding acts exactly
like the trimmed id. -/
theorem c10_trimmed_keys_witness :
    (∀ q ∈ runRequests
        [((0 : Int), Request.submit ⟨[' ', 'u', ' '], 0, ⟨6, 20, 1⟩⟩)],
      trim q.1 = q.1 ∧ q.1 ≠ []) ∧
    (get_unit_alerts [] (some [' ', 'u']) =
      get_unit_alerts [] (some (trim [' ', 'u']))) ∧
    (ingest 0 [] ⟨[' ', 'u'], 0, ⟨6, 20, 1⟩⟩ =
      ingest 0 [] ⟨trim [' ', 'u'], 0, ⟨6, 20, 1⟩⟩) :=
  c10_trimmed_keys [((0 : Int), Request.submit ⟨[' ', 'u', ' '], 0, ⟨6, 20, 1⟩⟩)]
    [] [' ', 'u'] 0 ⟨[' ', 'u'], 0, ⟨6, 20, 1⟩⟩

/-- C6: the overview returns one summary per unit known to the store,
ordered ascending in the key of severity rank (critical before warning
before healthy) with ties broken by unit id ascending, and totalUnits
equals the number of summaries returned. -/
theorem c6_overview_order (s : Store) :
    (get_all_units s).units.Pairwise statusLe ∧
    List.Perm ((get_all_units s).units.map (fun st => st.unitId))
      (s.map (fun q => q.1)) ∧
    (get_all_units s).totalUnits = (get_all_units s).units.length := by
  refine ⟨?_, ?_, rfl⟩
  · exact List.sorted_insertionSort statusLe _
  · have hp : List.Perm (get_all_units s).units
        (s.map (fun q => unit_status_of q.1 q.2)) :=
      List.perm_insertionSort statusLe _
    have hp2 := hp.map (fun st => st.unitId)
    refine hp2.trans ?_
    rw [List.map_map]
    have hfun : ((fun st => st.unitId) ∘ fun q : List Char × List SensorDataRecord =>
        unit_status_of q.1 q.2) = fun q : List Char × List SensorDataRecord => q.1 := by
      funext q
      rfl
    rw [hfun]

/-- C5: every overview summary reports a health status computed from only
the ten most recent readings by timestamp (healthy at zero attention
entries among them, warning at one to three, critical at four or more),
alertsCount counts attention entries across all of the unit's readings,
totalReadings is the full count, and lastReading is the unit's most recent
reading by timestamp, present whenever every stored unit has at least one
reading; stores reachable from the empty store keep that invariant. -/
theorem c5_overview_summary (s : Store) (st : UnitStatus)
    (trace : List (Int × Request))
    (hwf : ∀ q ∈ s, q.2 ≠ []) (hst : st ∈ (get_all_units s).units) :
    (∀ q ∈ runRequests trace, q.2 ≠ []) ∧
    ∃ rds : List SensorDataRecord, (st.unitId, rds) ∈ s ∧
      st.totalReadings = rds.length ∧
      st.alertsCount = rds.countP is_alert ∧
      (∃ last, st.lastReading = some last ∧ last ∈ rds ∧
        ∀ r ∈ rds, r.timestamp ≤ last.timestamp) ∧
      st.healthStatus =
        (if ((List.insertionSort tsDesc rds).take 10).countP is_alert = 0 then "healthy"
         else if ((List.insertionSort tsDesc rds).take 10).countP is_alert ≤ 3 then
           "warning"
         else "critical") ∧
      ((List.insertionSort tsDesc rds).take 10).length = min 10 rds.length ∧
      (∀ r ∈ (List.insertionSort tsDesc rds).take 10, r ∈ rds) ∧
      ((List.insertionSort tsDesc rds).take 10).Pairwise
        (fun a b => b.timestamp ≤ a.timestamp) := by
  constructor
  · intro q hq
    exact (storeInv_runRequests trace q hq).2.2
  · have hmem : st ∈ s.map (fun q => unit_status_of q.1 q.2) :=
      (List.mem_insertionSort statusLe).mp hst
    rcases List.mem_map.mp hmem with ⟨q, hq, heq⟩
    subst heq
    refine ⟨q.2, ?_, rfl, rfl, ?_, rfl, ?_, ?_, ?_⟩
    · show (q.1, q.2) ∈ s
      rw [Prod.mk.eta]
      exact hq
    · cases hsort : List.insertionSort tsDesc q.2 with
      | nil =>
        exfalso
        have hlen := List.length_insertionSort tsDesc q.2
        rw [hsort] at hlen
        simp at hlen
        exact hwf q hq (List.length_eq_zero.mp hlen.symm)
      | cons hd tl =>
        refine ⟨hd, ?_, ?_, ?_⟩
        · show (List.insertionSort tsDesc q.2).head? = some hd
          rw [hsort]
          rfl
        · have hmem2 : hd ∈ List.insertionSort tsDesc q.2 := by
            rw [hsort]
            exact List.mem_cons_self hd tl
          exact (List.mem_insertionSort tsDesc).mp hmem2
        · intro r hr
          have hr2 : r ∈ List.insertionSort tsDesc q.2 :=
            (List.mem_insertionSort tsDesc).mpr hr
          rw [hsort] at hr2
          rcases List.mem_cons.mp hr2 with h3 | h3
          · rw [h3]
          · have hs2 := List.sorted_insertionSort tsDesc q.2
            rw [hsort] at hs2
            exact List.rel_of_sorted_cons hs2 r h3
    · rw [List.length_take, List.length_insertionSort]
    · intro r hr
      exact (List.mem_insertionSort tsDesc).mp (List.mem_of_mem_take hr)
    · exact (List.sorted_insertionSort tsDesc _).sublist (List.take_sublist 10 _)

/-- C5 witness: for a store holding one unit with one attention reading, the
overview summary has that reading as lastReading, one alert in total and a
warning health status. -/
theorem c5_overview_summary_witness :
    (∀ q ∈ runRequests [], q.2 ≠ ([] : List SensorDataRecord)) ∧
    ∃ rds : List SensorDataRecord,
      ((unit_status_of ['u'] [⟨['u'], 1, ⟨8, 20, 1⟩, "Needs Attention"⟩]).unitId, rds) ∈
        [(['u'], [⟨['u'], 1, ⟨8, 20, 1⟩, "Needs Attention"⟩])] ∧
      (unit_status_of ['u'] [⟨['u'], 1, ⟨8, 20, 1⟩, "Needs Attention"⟩]).totalReadings =
        rds.length ∧
      (unit_status_of ['u'] [⟨['u'], 1, ⟨8, 20, 1⟩, "Needs Attention"⟩]).alertsCount =
        rds.countP is_alert ∧
      (∃ last, (unit_status_of ['u']
          [⟨['u'], 1, ⟨8, 20, 1⟩, "Needs Attention"⟩]).lastReading = some last ∧
        last ∈ rds ∧ ∀ r ∈ rds, r.timestamp ≤ last.timestamp) ∧
      (unit_status_of ['u'] [⟨['u'], 1, ⟨8, 20, 1⟩, "Needs Attention"⟩]).healthStatus =
        (if ((List.insertionSort tsDesc rds).take 10).countP is_alert = 0 then "healthy"
         else if ((List.insertionSort tsDesc rds).take 10).countP is_alert ≤ 3 then
           "warning"
         else "critical") ∧
      ((List.insertionSort tsDesc rds).take 10).length = min 10 rds.length ∧
      (∀ r ∈ (List.insertionSort tsDesc rds).take 10, r ∈ rds) ∧
      ((List.insertionSort tsDesc rds).take 10).Pairwise
        (fun a b => b.timestamp ≤ a.timestamp) :=
  c5_overview_summary [(['u'], [⟨['u'], 1, ⟨8, 20, 1⟩, "Needs Attention"⟩])]
    (unit_status_of ['u'] [⟨['u'], 1, ⟨8, 20, 1⟩, "Needs Attention"⟩]) []
    (by decide) (by decide)
